import Mathlib

/-!
Verification of the `claude-gate` models handler and confirmation-prompt
components, shallowly embedded from
`internal/proxy/models_handler.go` and `internal/ui/components/confirm.go`.
-/

namespace ClaudeGate

/-- JSON values, modelling Go's `map[string]interface{}` / `[]interface{}`
trees produced and consumed by the handler. Objects keep their fields as an
ordered association list, matching the order of the Go composite literals. -/
inductive Json where
  | null : Json
  | bool : Bool → Json
  | num : Int → Json
  | str : String → Json
  | arr : List Json → Json
  | obj : List (String × Json) → Json
deriving Repr

/-- Field access on a JSON object (`m["k"]` on a Go map); `none` when the
value is not an object or the key is missing. -/
def Json.lookup : Json → String → Option Json
  | .obj fields, k => fields.lookup k
  | _, _ => none

/-- HTTP response headers, as written through `w.Header().Set`:
`set` replaces any existing value for the key. -/
structure Headers where
  entries : List (String × String)
deriving Repr, DecidableEq

def Headers.empty : Headers := ⟨[]⟩

/-- `w.Header().Set(k, v)`: replace the value for `k`. -/
def Headers.set (h : Headers) (k v : String) : Headers :=
  ⟨(k, v) :: h.entries.filter (fun p => p.1 ≠ k)⟩

/-- `Header.Get(k)`: the value for `k`, or `""` when absent (Go semantics). -/
def Headers.get (h : Headers) (k : String) : String :=
  (h.entries.lookup k).getD ""

/-- An incoming HTTP request (`*http.Request`): method and headers. -/
structure Request where
  method : String
  headers : List (String × String)
deriving Repr, DecidableEq

/-- `r.Header.Get(k)`: first value for `k`, or `""` when the header is absent. -/
def Request.headerGet (r : Request) (k : String) : String :=
  (r.headers.lookup k).getD ""

/-- `setCORSHeadersStandalone` (models_handler.go lines 357-368). -/
def setCORSHeadersStandalone (w : Headers) (r : Request) : Headers :=
  let origin0 := r.headerGet "Origin"
  let origin := if origin0 = "" then "*" else origin0
  ((((w.set "Access-Control-Allow-Origin" origin).set
      "Access-Control-Allow-Methods" "GET, POST, PUT, DELETE, OPTIONS").set
      "Access-Control-Allow-Headers" "Content-Type, Authorization, X-Requested-With").set
      "Access-Control-Allow-Credentials" "true").set
      "Access-Control-Max-Age" "3600"

/-- The token provider interface (`TokenProvider`): `GetAccessToken()`
returns a token or an error. The state of a concrete provider is captured by
the result this call would produce. -/
structure TokenProvider where
  GetAccessToken : Except String String

/-- `ModelsHandler` (models_handler.go lines 12-16). The `http.Client` field
carries no observable state for the claims and is omitted; outbound calls are
modelled by an upstream oracle passed to `fetchModelsFromAnthropic`. -/
structure ModelsHandler where
  tokenProvider : TokenProvider
  upstreamURL : String

/-- An outbound HTTP request built with `http.NewRequest` plus
`req.Header.Set` calls, headers in the order the code sets them. -/
structure HttpRequest where
  method : String
  url : String
  headers : List (String × String)
deriving Repr, DecidableEq

/-- Observable side effects of the handler: a call to
`tokenProvider.GetAccessToken()` or an outbound HTTP request via
`httpClient.Do`. -/
inductive Effect where
  | getAccessTokenCall : Effect
  | upstreamCall : HttpRequest → Effect
deriving Repr, DecidableEq

/-- An HTTP response as the handler produces it: status code, headers, and
the JSON document written to the body (`none` when no body is written). -/
structure Response where
  status : Nat
  headers : Headers
  body : Option Json

/-- Result of running a handler: the response plus the trace of effects. -/
structure HandlerResult where
  response : Response
  effects : List Effect

/-- The single permission object the Go code embeds in every model entry of
`getOAuthModels` (and in `convertAnthropicModelsToOpenAI`), with
`created = int(time.Now().Unix())` passed in as `now`. -/
def permissionObj (now : Int) (modelID : String) : Json :=
  Json.obj [
    ("allow_create_engine", Json.bool false),
    ("allow_fine_tuning", Json.bool false),
    ("allow_logprobs", Json.bool false),
    ("allow_sampling", Json.bool true),
    ("allow_search_indices", Json.bool false),
    ("allow_view", Json.bool true),
    ("created", Json.num now),
    ("group", Json.null),
    ("id", Json.str ("modelperm-" ++ modelID)),
    ("is_blocking", Json.bool false),
    ("object", Json.str "model_permission"),
    ("organization", Json.str "*")]

/-- `getOAuthModels` (models_handler.go lines 142-354): the static list of
OAuth-accessible models. `now` stands for `time.Now().Unix()`; each
top-level `created` is a hard-coded release date, each `permission` entry's
`created` is `now`. -/
def ModelsHandler.getOAuthModels (h : ModelsHandler) (now : Int) : Json :=
  Json.obj [
    ("object", Json.str "list"),
    ("data", Json.arr [
      Json.obj [
        ("id", Json.str "claude-opus-4-20250514"),
        ("object", Json.str "model"),
        ("created", Json.num 1747353600),
        ("owned_by", Json.str "anthropic"),
        ("permission", Json.arr [permissionObj now "claude-opus-4-20250514"])],
      Json.obj [
        ("id", Json.str "claude-sonnet-4-20250514"),
        ("object", Json.str "model"),
        ("created", Json.num 1747353600),
        ("owned_by", Json.str "anthropic"),
        ("permission", Json.arr [permissionObj now "claude-sonnet-4-20250514"])],
      Json.obj [
        ("id", Json.str "claude-3-7-sonnet-20250219"),
        ("object", Json.str "model"),
        ("created", Json.num 1740009600),
        ("owned_by", Json.str "anthropic"),
        ("permission", Json.arr [permissionObj now "claude-3-7-sonnet-20250219"])],
      Json.obj [
        ("id", Json.str "claude-3-5-sonnet-20241022"),
        ("object", Json.str "model"),
        ("created", Json.num 1729555200),
        ("owned_by", Json.str "anthropic"),
        ("permission", Json.arr [permissionObj now "claude-3-5-sonnet-20241022"])],
      Json.obj [
        ("id", Json.str "claude-3-5-sonnet-20240620"),
        ("object", Json.str "model"),
        ("created", Json.num 1718841600),
        ("owned_by", Json.str "anthropic"),
        ("permission", Json.arr [permissionObj now "claude-3-5-sonnet-20240620"])],
      Json.obj [
        ("id", Json.str "claude-3-5-haiku-20241022"),
        ("object", Json.str "model"),
        ("created", Json.num 1729555200),
        ("owned_by", Json.str "anthropic"),
        ("permission", Json.arr [permissionObj now "claude-3-5-haiku-20241022"])],
      Json.obj [
        ("id", Json.str "claude-3-opus-20240229"),
        ("object", Json.str "model"),
        ("created", Json.num 1709251200),
        ("owned_by", Json.str "anthropic"),
        ("permission", Json.arr [permissionObj now "claude-3-opus-20240229"])],
      Json.obj [
        ("id", Json.str "claude-3-sonnet-20240229"),
        ("object", Json.str "model"),
        ("created", Json.num 1709251200),
        ("owned_by", Json.str "anthropic"),
        ("permission", Json.arr [permissionObj now "claude-3-sonnet-20240229"])],
      Json.obj [
        ("id", Json.str "claude-3-haiku-20240307"),
        ("object", Json.str "model"),
        ("created", Json.num 1709769600),
        ("owned_by", Json.str "anthropic"),
        ("permission", Json.arr [permissionObj now "claude-3-haiku-20240307"])]])]

/-- `ServeHTTP` (models_handler.go lines 28-44). `now` stands for the wall
clock at which the body is built. The effect trace records every
`GetAccessToken` call and outbound HTTP request; this code path performs
neither. -/
def ModelsHandler.ServeHTTP (h : ModelsHandler) (now : Int) (r : Request) :
    HandlerResult :=
  if r.method = "OPTIONS" then
    { response := { status := 204,
                    headers := setCORSHeadersStandalone Headers.empty r,
                    body := none },
      effects := [] }
  else
    { response := { status := 200,
                    headers := (setCORSHeadersStandalone Headers.empty r).set
                                 "Content-Type" "application/json",
                    body := some (h.getOAuthModels now) },
      effects := [] }

/-- The per-model conversion in the loop body of
`convertAnthropicModelsToOpenAI` (models_handler.go lines 108-129):
the OpenAI-format entry built for one model id. -/
def openAIModelFor (now : Int) (modelID : String) : Json :=
  Json.obj [
    ("id", Json.str modelID),
    ("object", Json.str "model"),
    ("created", Json.num now),
    ("owned_by", Json.str "anthropic"),
    ("permission", Json.arr [permissionObj now modelID])]

/-- The `for _, item := range data` loop of `convertAnthropicModelsToOpenAI`
(models_handler.go lines 104-133): keep, in order, one converted entry per
element that is an object carrying a string `id`; skip everything else. -/
def convertModelsLoop (now : Int) : List Json → List Json
  | [] => []
  | item :: rest =>
    match item with
    | .obj model =>
      match model.lookup "id" with
      | some (.str modelID) => openAIModelFor now modelID :: convertModelsLoop now rest
      | _ => convertModelsLoop now rest
    | _ => convertModelsLoop now rest

/-- `convertAnthropicModelsToOpenAI` (models_handler.go lines 94-139).
Starts from `{object: "list", data: []}`; when the input's `data` is an
array, replaces `data` with the converted entries. -/
def ModelsHandler.convertAnthropicModelsToOpenAI (h : ModelsHandler)
    (now : Int) (anthropicResponse : Json) : Json :=
  match anthropicResponse.lookup "data" with
  | some (.arr data) =>
      Json.obj [("object", Json.str "list"),
                ("data", Json.arr (convertModelsLoop now data))]
  | _ => Json.obj [("object", Json.str "list"), ("data", Json.arr [])]

/-- `fetchModelsFromAnthropic` (models_handler.go lines 47-91). The network
is an oracle from the built request to either a transport error or a status
code plus the parse result of the body (`none`: unparseable JSON). The
effect trace records the `GetAccessToken` call and the outbound request. -/
def ModelsHandler.fetchModelsFromAnthropic (h : ModelsHandler) (now : Int)
    (upstream : HttpRequest → Except String (Nat × Option Json)) :
    Except String Json × List Effect :=
  match h.tokenProvider.GetAccessToken with
  | .error e => (.error ("failed to get access token: " ++ e), [.getAccessTokenCall])
  | .ok accessToken =>
    let req : HttpRequest :=
      { method := "GET",
        url := h.upstreamURL ++ "/v1/models",
        headers := [
          ("Authorization", "Bearer " ++ accessToken),
          ("anthropic-version", "2023-06-01"),
          ("anthropic-beta", "oauth-2025-04-20"),
          ("Content-Type", "application/json")] }
    match upstream req with
    | .error e =>
        (.error ("failed to make request: " ++ e),
         [.getAccessTokenCall, .upstreamCall req])
    | .ok (status, bodyJson) =>
      if status ≠ 200 then
        (.error ("API returned status " ++ toString status),
         [.getAccessTokenCall, .upstreamCall req])
      else
        match bodyJson with
        | none =>
            (.error "failed to parse response",
             [.getAccessTokenCall, .upstreamCall req])
        | some anthropicResponse =>
            (.ok (h.convertAnthropicModelsToOpenAI now anthropicResponse),
             [.getAccessTokenCall, .upstreamCall req])

/-! ## Confirmation prompts (internal/ui/components/confirm.go) -/

/-- A bubbletea message as the `Update` functions discriminate it: a key
message carrying the result of `msg.String()`, or any other message. -/
inductive Msg where
  | key : String → Msg
  | other : Msg
deriving Repr, DecidableEq

/-- The only command these components issue is `tea.Quit`; a `nil` command
is `none`. -/
inductive Cmd where
  | quit : Cmd
deriving Repr, DecidableEq

/-- `ConfirmModel` (confirm.go lines 12-16). -/
structure ConfirmModel where
  question : String
  answer : Bool
  answered : Bool
deriving Repr, DecidableEq

/-- `ConfirmModel.Update` (confirm.go lines 33-52). -/
def ConfirmModel.Update (m : ConfirmModel) (msg : Msg) :
    ConfirmModel × Option Cmd :=
  match msg with
  | .key s =>
    if s = "y" ∨ s = "Y" then
      ({ m with answer := true, answered := true }, some .quit)
    else if s = "n" ∨ s = "N" then
      ({ m with answer := false, answered := true }, some .quit)
    else if s = "ctrl+c" ∨ s = "esc" then
      ({ m with answer := false, answered := true }, some .quit)
    else (m, none)
  | .other => (m, none)

/-- `ConfirmDefaultModel` (confirm.go lines 144-147): embeds `ConfirmModel`
and adds the default answer. -/
structure ConfirmDefaultModel where
  toConfirmModel : ConfirmModel
  defaultYes : Bool
deriving Repr, DecidableEq

/-- `ConfirmDefaultModel.Update` (confirm.go lines 150-173). -/
def ConfirmDefaultModel.Update (m : ConfirmDefaultModel) (msg : Msg) :
    ConfirmDefaultModel × Option Cmd :=
  match msg with
  | .key s =>
    if s = "y" ∨ s = "Y" then
      ({ m with toConfirmModel.answer := true, toConfirmModel.answered := true },
       some .quit)
    else if s = "n" ∨ s = "N" then
      ({ m with toConfirmModel.answer := false, toConfirmModel.answered := true },
       some .quit)
    else if s = "enter" then
      ({ m with toConfirmModel.answer := m.defaultYes,
                toConfirmModel.answered := true }, some .quit)
    else if s = "ctrl+c" ∨ s = "esc" then
      ({ m with toConfirmModel.answer := false, toConfirmModel.answered := true },
       some .quit)
    else (m, none)
  | .other => (m, none)

/-- `confirmNonInteractive` (confirm.go lines 118-141). `input` is the line
`fmt.Scanln` reads from standard input; `none` means `Scanln` returned an
error (including empty input), in which case the default is returned. -/
def confirmNonInteractive (question : String) (defaultYes : Bool)
    (input : Option String) : Bool :=
  match input with
  | none => defaultYes
  | some response =>
    if response = "y" ∨ response = "Y" ∨ response = "yes" ∨
       response = "Yes" ∨ response = "YES" then true
    else if response = "n" ∨ response = "N" ∨ response = "no" ∨
            response = "No" ∨ response = "NO" then false
    else defaultYes

/-! ## Spec-side observers

These definitions follow the words of the specification and of the claims,
to be compared with the source-derived functions above. -/

/-- Spec wording: is `j` the string `s`? -/
def specIsStr (j : Json) (s : String) : Bool :=
  match j with
  | .str t => t = s
  | _ => false

/-- Spec wording for the OpenAI list shape: the top-level object has
`object = "list"` and a `data` array, and every element of `data` has
`object = "model"` and `owned_by = "anthropic"`. -/
def specIsOpenAIListShape (j : Json) : Bool :=
  (match j.lookup "object" with
   | some o => specIsStr o "list"
   | none => false) &&
  (match j.lookup "data" with
   | some (.arr xs) =>
       xs.all (fun x =>
         (match x.lookup "object" with
          | some o => specIsStr o "model"
          | none => false) &&
         (match x.lookup "owned_by" with
          | some o => specIsStr o "anthropic"
          | none => false))
   | _ => false)

/-- The top-level `created` field of each element of a listing's `data`. -/
def specTopCreated (j : Json) : List (Option Json) :=
  match j.lookup "data" with
  | some (.arr xs) => xs.map (fun x => x.lookup "created")
  | _ => []

/-- The `created` field of each element's single `permission` entry. -/
def specPermCreated (j : Json) : List (Option Json) :=
  match j.lookup "data" with
  | some (.arr xs) =>
      xs.map (fun x =>
        match x.lookup "permission" with
        | some (.arr [p]) => p.lookup "created"
        | _ => none)
  | _ => []

/-- Spec wording (C8): the input's `data` elements when `data` is an array,
and nothing when `data` is missing or not an array. -/
def specDataList (resp : Json) : List Json :=
  match resp.lookup "data" with
  | some (.arr xs) => xs
  | _ => []

/-- Spec wording (C8): the string `id` of an input element that is an object
with a string `id` field; `none` for elements of any other shape. -/
def specExtractId (item : Json) : Option String :=
  match item with
  | .obj fields =>
    match fields.lookup "id" with
    | some (.str modelID) => some modelID
    | _ => none
  | _ => none

/-- The `id` field of an output entry, when it is a string. -/
def specEntryId (j : Json) : Option String :=
  match j.lookup "id" with
  | some (.str s) => some s
  | _ => none

/-- The `id` of an output entry's single `permission` element. -/
def specPermissionId (j : Json) : Option String :=
  match j.lookup "permission" with
  | some (.arr [p]) =>
    match p.lookup "id" with
    | some (.str s) => some s
    | _ => none
  | _ => none

/-! ## Theorems -/

/-- C1: every GET request to /v1/models is answered with a JSON document in
OpenAI list shape: top-level `object = "list"` with a `data` array whose
every element has `object = "model"` and `owned_by = "anthropic"`. -/
theorem models_get_openai_list_shape (h : ModelsHandler) (now : Int)
    (r : Request) (hm : r.method = "GET") :
    ∃ j, (h.ServeHTTP now r).response.body = some j ∧
      specIsOpenAIListShape j = true := by
  have hne : r.method ≠ "OPTIONS" := by rw [hm]; decide
  refine ⟨h.getOAuthModels now, ?_, rfl⟩
  simp [ModelsHandler.ServeHTTP, hne]

/-- Witness for C1 at a concrete handler and GET request. -/
theorem models_get_openai_list_shape_witness :
    ∃ j, ((ModelsHandler.mk ⟨Except.ok "tok"⟩ "https://api.anthropic.com").ServeHTTP
            0 (Request.mk "GET" [])).response.body = some j ∧
      specIsOpenAIListShape j = true :=
  models_get_openai_list_shape _ 0 _ rfl

/-- C4: an OPTIONS request is answered 204 No Content with the CORS headers
set and no body written. -/
theorem models_options_no_content (h : ModelsHandler) (now : Int)
    (r : Request) (hm : r.method = "OPTIONS") :
    (h.ServeHTTP now r).response.status = 204 ∧
    (h.ServeHTTP now r).response.body = none ∧
    (h.ServeHTTP now r).response.headers =
      setCORSHeadersStandalone Headers.empty r := by
  simp [ModelsHandler.ServeHTTP, hm]

/-- Witness for C4 at a concrete handler and OPTIONS request. -/
theorem models_options_no_content_witness :
    ((ModelsHandler.mk ⟨Except.ok "tok"⟩ "https://api.anthropic.com").ServeHTTP
        0 (Request.mk "OPTIONS" [("Origin", "http://localhost")])).response.status = 204 ∧
    ((ModelsHandler.mk ⟨Except.ok "tok"⟩ "https://api.anthropic.com").ServeHTTP
        0 (Request.mk "OPTIONS" [("Origin", "http://localhost")])).response.body = none ∧
    ((ModelsHandler.mk ⟨Except.ok "tok"⟩ "https://api.anthropic.com").ServeHTTP
        0 (Request.mk "OPTIONS" [("Origin", "http://localhost")])).response.headers =
      setCORSHeadersStandalone Headers.empty
        (Request.mk "OPTIONS" [("Origin", "http://localhost")]) :=
  models_options_no_content _ 0 _ rfl

/-- C5: in the model listing, every top-level `created` is a fixed release
date that does not vary with the clock, while every `permission` entry's
`created` equals the current time. -/
theorem models_created_fields (h : ModelsHandler) (now : Int) :
    specTopCreated (h.getOAuthModels now) =
      [some (Json.num 1747353600), some (Json.num 1747353600),
       some (Json.num 1740009600), some (Json.num 1729555200),
       some (Json.num 1718841600), some (Json.num 1729555200),
       some (Json.num 1709251200), some (Json.num 1709251200),
       some (Json.num 1709769600)] ∧
    specPermCreated (h.getOAuthModels now) =
      List.replicate 9 (some (Json.num now)) :=
  ⟨rfl, rfl⟩

/-- The values `setCORSHeadersStandalone` leaves readable in the response
headers, with and without the later `Content-Type` set of the GET branch. -/
theorem setCORS_header_values (r : Request) :
    (setCORSHeadersStandalone Headers.empty r).get "Access-Control-Allow-Origin" =
      (if r.headerGet "Origin" = "" then "*" else r.headerGet "Origin") ∧
    ((setCORSHeadersStandalone Headers.empty r).set "Content-Type"
        "application/json").get "Access-Control-Allow-Origin" =
      (if r.headerGet "Origin" = "" then "*" else r.headerGet "Origin") ∧
    (setCORSHeadersStandalone Headers.empty r).get
        "Access-Control-Allow-Credentials" = "true" ∧
    ((setCORSHeadersStandalone Headers.empty r).set "Content-Type"
        "application/json").get "Access-Control-Allow-Credentials" = "true" ∧
    (setCORSHeadersStandalone Headers.empty r).get
        "Access-Control-Max-Age" = "3600" ∧
    ((setCORSHeadersStandalone Headers.empty r).set "Content-Type"
        "application/json").get "Access-Control-Max-Age" = "3600" :=
  ⟨rfl, rfl, rfl, rfl, rfl, rfl⟩

/-- C3: on every response of the handler, Access-Control-Allow-Origin echoes
a non-empty Origin request header and is `*` when Origin is absent;
Access-Control-Allow-Credentials is `true` and Access-Control-Max-Age is
`3600` in both cases. -/
theorem cors_origin_credentials_max_age (h : ModelsHandler) (now : Int)
    (r : Request) :
    (∀ o, r.headers.lookup "Origin" = some o → o ≠ "" →
      ((h.ServeHTTP now r).response.headers).get "Access-Control-Allow-Origin" = o) ∧
    (r.headers.lookup "Origin" = none →
      ((h.ServeHTTP now r).response.headers).get "Access-Control-Allow-Origin" = "*") ∧
    ((h.ServeHTTP now r).response.headers).get
        "Access-Control-Allow-Credentials" = "true" ∧
    ((h.ServeHTTP now r).response.headers).get
        "Access-Control-Max-Age" = "3600" := by
  obtain ⟨ho1, ho2, hc1, hc2, hm1, hm2⟩ := setCORS_header_values r
  by_cases hm : r.method = "OPTIONS" <;>
    simp only [ModelsHandler.ServeHTTP, hm, if_true, if_false, ite_true,
      ite_false, if_pos, if_neg, not_false_iff] <;>
  · constructor
    · intro o ho hne
      first
        | rw [ho1] | rw [ho2]
      all_goals
        simp [Request.headerGet, ho, hne]
    · refine ⟨?_, by assumption, by assumption⟩
      intro ho
      first
        | rw [ho1] | rw [ho2]
      all_goals
        simp [Request.headerGet, ho]

/-- Witness for C3 at concrete requests with and without an Origin header. -/
theorem cors_origin_credentials_max_age_witness :
    ((ModelsHandler.mk ⟨Except.ok "tok"⟩ "u").ServeHTTP 0
        (Request.mk "GET" [("Origin", "http://localhost:3000")])).response.headers.get
      "Access-Control-Allow-Origin" = "http://localhost:3000" ∧
    ((ModelsHandler.mk ⟨Except.ok "tok"⟩ "u").ServeHTTP 0
        (Request.mk "GET" [])).response.headers.get
      "Access-Control-Allow-Origin" = "*" ∧
    ((ModelsHandler.mk ⟨Except.ok "tok"⟩ "u").ServeHTTP 0
        (Request.mk "GET" [])).response.headers.get
      "Access-Control-Allow-Credentials" = "true" ∧
    ((ModelsHandler.mk ⟨Except.ok "tok"⟩ "u").ServeHTTP 0
        (Request.mk "GET" [])).response.headers.get
      "Access-Control-Max-Age" = "3600" := by
  refine ⟨?_, ?_, ?_, ?_⟩
  · exact (cors_origin_credentials_max_age (ModelsHandler.mk ⟨Except.ok "tok"⟩ "u") 0
      (Request.mk "GET" [("Origin", "http://localhost:3000")])).1
      "http://localhost:3000" rfl (by decide)
  · exact (cors_origin_credentials_max_age (ModelsHandler.mk ⟨Except.ok "tok"⟩ "u") 0
      (Request.mk "GET" [])).2.1 rfl
  · exact (cors_origin_credentials_max_age (ModelsHandler.mk ⟨Except.ok "tok"⟩ "u") 0
      (Request.mk "GET" [])).2.2.1
  · exact (cors_origin_credentials_max_age (ModelsHandler.mk ⟨Except.ok "tok"⟩ "u") 0
      (Request.mk "GET" [])).2.2.2

/-- C2 as stated is false: the code sets Access-Control-Allow-Headers to
"Content-Type, Authorization, X-Requested-With", without the anthropic
headers the claim lists. -/
theorem cors_allow_headers_counterexample :
    ¬ (((ModelsHandler.mk ⟨Except.ok "tok"⟩ "u").ServeHTTP 0
          (Request.mk "GET" [])).response.headers.get
         "Access-Control-Allow-Headers" =
       "Content-Type, Authorization, X-Requested-With, anthropic-version, anthropic-beta") := by
  decide

/-- C2 amended: wherever the handler attaches CORS headers, the
Access-Control-Allow-Headers value is exactly
"Content-Type, Authorization, X-Requested-With". -/
theorem cors_allow_headers_value (w : Headers) (r : Request) :
    (setCORSHeadersStandalone w r).get "Access-Control-Allow-Headers" =
      "Content-Type, Authorization, X-Requested-With" :=
  rfl

/-- C6: at a fixed clock instant, a GET response of the models handler has
the same status and body for any two token-provider states, and the handler
performs no GetAccessToken call and no upstream request. -/
theorem models_response_provider_independent (tp₁ tp₂ : TokenProvider)
    (u : String) (now : Int) (r : Request) (hm : r.method = "GET") :
    ((ModelsHandler.mk tp₁ u).ServeHTTP now r).response.status =
      ((ModelsHandler.mk tp₂ u).ServeHTTP now r).response.status ∧
    ((ModelsHandler.mk tp₁ u).ServeHTTP now r).response.body =
      ((ModelsHandler.mk tp₂ u).ServeHTTP now r).response.body ∧
    ((ModelsHandler.mk tp₁ u).ServeHTTP now r).effects = [] ∧
    ((ModelsHandler.mk tp₂ u).ServeHTTP now r).effects = [] := by
  have hne : r.method ≠ "OPTIONS" := by rw [hm]; decide
  refine ⟨?_, ?_, ?_, ?_⟩ <;>
    simp [ModelsHandler.ServeHTTP, hne, ModelsHandler.getOAuthModels]

/-- Witness for C6: a provider holding a token against one whose
GetAccessToken fails. -/
theorem models_response_provider_independent_witness :
    ((ModelsHandler.mk ⟨Except.ok "tok"⟩ "u").ServeHTTP 0
        (Request.mk "GET" [])).response.status =
      ((ModelsHandler.mk ⟨Except.error "login required"⟩ "u").ServeHTTP 0
        (Request.mk "GET" [])).response.status ∧
    ((ModelsHandler.mk ⟨Except.ok "tok"⟩ "u").ServeHTTP 0
        (Request.mk "GET" [])).response.body =
      ((ModelsHandler.mk ⟨Except.error "login required"⟩ "u").ServeHTTP 0
        (Request.mk "GET" [])).response.body ∧
    ((ModelsHandler.mk ⟨Except.ok "tok"⟩ "u").ServeHTTP 0
        (Request.mk "GET" [])).effects = [] ∧
    ((ModelsHandler.mk ⟨Except.error "login required"⟩ "u").ServeHTTP 0
        (Request.mk "GET" [])).effects = [] :=
  models_response_provider_independent ⟨Except.ok "tok"⟩
    ⟨Except.error "login required"⟩ "u" 0 (Request.mk "GET" []) rfl

/-- With a token available, `fetchModelsFromAnthropic` emits exactly one
GetAccessToken call and one upstream request, the one it builds for
`GET <upstream>/v1/models`. -/
theorem fetch_effects_ok (h : ModelsHandler) (now : Int)
    (upstream : HttpRequest → Except String (Nat × Option Json))
    (t : String) (ht : h.tokenProvider.GetAccessToken = Except.ok t) :
    (h.fetchModelsFromAnthropic now upstream).2 =
      [Effect.getAccessTokenCall,
       Effect.upstreamCall
         { method := "GET", url := h.upstreamURL ++ "/v1/models",
           headers := [
             ("Authorization", "Bearer " ++ t),
             ("anthropic-version", "2023-06-01"),
             ("anthropic-beta", "oauth-2025-04-20"),
             ("Content-Type", "application/json")] }] := by
  simp only [ModelsHandler.fetchModelsFromAnthropic, ht]
  rcases hup : upstream
      { method := "GET", url := h.upstreamURL ++ "/v1/models",
        headers := [
          ("Authorization", "Bearer " ++ t),
          ("anthropic-version", "2023-06-01"),
          ("anthropic-beta", "oauth-2025-04-20"),
          ("Content-Type", "application/json")] } with e | p
  · rfl
  · obtain ⟨st, bj⟩ := p
    by_cases hst : st = 200
    · subst hst
      cases bj <;> simp
    · simp [hst]

/-- C7 as stated is false: the built upstream request also carries
`Content-Type: application/json`, so its headers are not exactly the three
the claim lists. -/
theorem fetch_headers_exactly_counterexample :
    ¬ (∀ req, Effect.upstreamCall req ∈
        ((ModelsHandler.mk ⟨Except.ok "tok"⟩
            "https://api.anthropic.com").fetchModelsFromAnthropic
          0 (fun _ => Except.ok (200, some (Json.obj [])))).2 →
        req.headers = [("Authorization", "Bearer tok"),
                       ("anthropic-version", "2023-06-01"),
                       ("anthropic-beta", "oauth-2025-04-20")]) := fun hcl =>
  absurd
    (hcl (HttpRequest.mk "GET" "https://api.anthropic.com/v1/models"
        [("Authorization", "Bearer tok"), ("anthropic-version", "2023-06-01"),
         ("anthropic-beta", "oauth-2025-04-20"),
         ("Content-Type", "application/json")])
      (by decide))
    (by decide)

/-- C7 amended: every upstream request `fetchModelsFromAnthropic` issues
carries Authorization: Bearer token, anthropic-version: 2023-06-01,
anthropic-beta: oauth-2025-04-20, and additionally
Content-Type: application/json — exactly these four headers. -/
theorem fetch_request_headers (h : ModelsHandler) (now : Int)
    (upstream : HttpRequest → Except String (Nat × Option Json))
    (t : String) (ht : h.tokenProvider.GetAccessToken = Except.ok t)
    (req : HttpRequest)
    (hreq : Effect.upstreamCall req ∈ (h.fetchModelsFromAnthropic now upstream).2) :
    req.headers = [("Authorization", "Bearer " ++ t),
                   ("anthropic-version", "2023-06-01"),
                   ("anthropic-beta", "oauth-2025-04-20"),
                   ("Content-Type", "application/json")] := by
  rw [fetch_effects_ok h now upstream t ht] at hreq
  simp only [List.mem_cons, List.not_mem_nil, or_false] at hreq
  rcases hreq with hreq | hreq
  · exact absurd hreq (by simp)
  · obtain rfl : req = _ := Effect.upstreamCall.inj hreq
    rfl

/-- Witness for C7's amended claim at a concrete handler and upstream. -/
theorem fetch_request_headers_witness :
    (HttpRequest.mk "GET" "https://api.anthropic.com/v1/models"
        [("Authorization", "Bearer tok"), ("anthropic-version", "2023-06-01"),
         ("anthropic-beta", "oauth-2025-04-20"),
         ("Content-Type", "application/json")]).headers =
      [("Authorization", "Bearer " ++ "tok"),
       ("anthropic-version", "2023-06-01"),
       ("anthropic-beta", "oauth-2025-04-20"),
       ("Content-Type", "application/json")] :=
  fetch_request_headers
    (ModelsHandler.mk ⟨Except.ok "tok"⟩ "https://api.anthropic.com") 0
    (fun _ => Except.ok (200, some (Json.obj []))) "tok" rfl
    (HttpRequest.mk "GET" "https://api.anthropic.com/v1/models"
        [("Authorization", "Bearer tok"), ("anthropic-version", "2023-06-01"),
         ("anthropic-beta", "oauth-2025-04-20"),
         ("Content-Type", "application/json")])
    (by decide)

/-- A converted entry preserves the model id. -/
theorem specEntryId_openAIModelFor (now : Int) (i : String) :
    specEntryId (openAIModelFor now i) = some i := rfl

/-- A converted entry's permission id is "modelperm-" ++ id. -/
theorem specPermissionId_openAIModelFor (now : Int) (i : String) :
    specPermissionId (openAIModelFor now i) = some ("modelperm-" ++ i) := rfl

/-- The conversion loop produces, in input order, exactly one entry per
element that is an object with a string id, preserving the id and deriving
the permission id. -/
theorem convertModelsLoop_ids (now : Int) (xs : List Json) :
    (convertModelsLoop now xs).map specEntryId =
      (xs.filterMap specExtractId).map some ∧
    (convertModelsLoop now xs).map specPermissionId =
      (xs.filterMap specExtractId).map (fun i => some ("modelperm-" ++ i)) := by
  induction xs with
  | nil => exact ⟨rfl, rfl⟩
  | cons item rest ih =>
    obtain ⟨ih1, ih2⟩ := ih
    cases item with
    | obj fields =>
      rcases hid : fields.lookup "id" with _ | v
      · simpa [convertModelsLoop, specExtractId, hid] using ⟨ih1, ih2⟩
      · cases v <;>
          simp [convertModelsLoop, specExtractId, hid,
            specEntryId_openAIModelFor, specPermissionId_openAIModelFor,
            ih1, ih2]
    | null => simpa [convertModelsLoop, specExtractId] using ⟨ih1, ih2⟩
    | bool b => simpa [convertModelsLoop, specExtractId] using ⟨ih1, ih2⟩
    | num n => simpa [convertModelsLoop, specExtractId] using ⟨ih1, ih2⟩
    | str s => simpa [convertModelsLoop, specExtractId] using ⟨ih1, ih2⟩
    | arr ys => simpa [convertModelsLoop, specExtractId] using ⟨ih1, ih2⟩

/-- `convertAnthropicModelsToOpenAI` rewritten through the spec-side view of
the input's data list. -/
theorem convert_eq (h : ModelsHandler) (now : Int) (resp : Json) :
    h.convertAnthropicModelsToOpenAI now resp =
      Json.obj [("object", Json.str "list"),
                ("data", Json.arr (convertModelsLoop now (specDataList resp)))] := by
  unfold ModelsHandler.convertAnthropicModelsToOpenAI specDataList
  rcases resp.lookup "data" with _ | j
  · rfl
  · cases j <;> rfl

/-- C8: the converter returns an object with `object = "list"` whose `data`
contains, in input order, exactly one entry per input element that is an
object with a string id — that id preserved, the permission id equal to
"modelperm-" ++ id — with elements of any other shape, and a missing or
non-array input `data`, contributing no entries. -/
theorem convert_anthropic_models (h : ModelsHandler) (now : Int) (resp : Json) :
    (h.convertAnthropicModelsToOpenAI now resp).lookup "object" =
      some (Json.str "list") ∧
    ∃ entries : List Json,
      (h.convertAnthropicModelsToOpenAI now resp).lookup "data" =
        some (Json.arr entries) ∧
      entries.map specEntryId =
        ((specDataList resp).filterMap specExtractId).map some ∧
      entries.map specPermissionId =
        ((specDataList resp).filterMap specExtractId).map
          (fun i => some ("modelperm-" ++ i)) := by
  obtain ⟨h1, h2⟩ := convertModelsLoop_ids now (specDataList resp)
  rw [convert_eq]
  exact ⟨rfl, convertModelsLoop now (specDataList resp), rfl, h1, h2⟩

/-- C9: in both Update functions, ctrl+c and esc always cancel (answer
false, answered true — never yes, whatever the default), and any message
other than the handled key messages returns the model unchanged with a nil
command. -/
theorem confirm_update_cancel_and_passthrough :
    (∀ (m : ConfirmModel) (s : String), s = "ctrl+c" ∨ s = "esc" →
       (m.Update (Msg.key s)).1.answer = false ∧
       (m.Update (Msg.key s)).1.answered = true) ∧
    (∀ (m : ConfirmModel) (msg : Msg),
       (∀ s, msg = Msg.key s →
          s ≠ "y" ∧ s ≠ "Y" ∧ s ≠ "n" ∧ s ≠ "N" ∧ s ≠ "ctrl+c" ∧ s ≠ "esc") →
       m.Update msg = (m, none)) ∧
    (∀ (m : ConfirmDefaultModel) (s : String), s = "ctrl+c" ∨ s = "esc" →
       (m.Update (Msg.key s)).1.toConfirmModel.answer = false ∧
       (m.Update (Msg.key s)).1.toConfirmModel.answered = true) ∧
    (∀ (m : ConfirmDefaultModel) (msg : Msg),
       (∀ s, msg = Msg.key s →
          s ≠ "y" ∧ s ≠ "Y" ∧ s ≠ "n" ∧ s ≠ "N" ∧ s ≠ "enter" ∧
          s ≠ "ctrl+c" ∧ s ≠ "esc") →
       m.Update msg = (m, none)) := by
  refine ⟨?_, ?_, ?_, ?_⟩
  · intro m s hs
    rcases hs with rfl | rfl <;> exact ⟨rfl, rfl⟩
  · intro m msg hmsg
    cases msg with
    | other => rfl
    | key s =>
      obtain ⟨h1, h2, h3, h4, h5, h6⟩ := hmsg s rfl
      simp [ConfirmModel.Update, h1, h2, h3, h4, h5, h6]
  · intro m s hs
    rcases hs with rfl | rfl <;> exact ⟨rfl, rfl⟩
  · intro m msg hmsg
    cases msg with
    | other => rfl
    | key s =>
      obtain ⟨h1, h2, h3, h4, h5, h6, h7⟩ := hmsg s rfl
      simp [ConfirmDefaultModel.Update, h1, h2, h3, h4, h5, h6, h7]

/-- Witness for C9: esc cancels a plain prompt, ctrl+c cancels a
default-yes prompt, and unhandled messages pass through unchanged. -/
theorem confirm_update_cancel_and_passthrough_witness :
    ((ConfirmModel.mk "q" true false).Update (Msg.key "esc")).1.answer = false ∧
    (ConfirmModel.mk "q" false false).Update Msg.other =
      (ConfirmModel.mk "q" false false, none) ∧
    ((ConfirmDefaultModel.mk (ConfirmModel.mk "q" true false) true).Update
        (Msg.key "ctrl+c")).1.toConfirmModel.answer = false ∧
    (ConfirmDefaultModel.mk (ConfirmModel.mk "q" true false) true).Update
        (Msg.key "x") =
      (ConfirmDefaultModel.mk (ConfirmModel.mk "q" true false) true, none) := by
  obtain ⟨c1, c2, c3, c4⟩ := confirm_update_cancel_and_passthrough
  refine ⟨(c1 _ "esc" (Or.inr rfl)).1, c2 _ _ ?_,
          (c3 _ "ctrl+c" (Or.inl rfl)).1, c4 _ _ ?_⟩
  · intro s hs
    exact Msg.noConfusion hs
  · intro s hs
    injection hs with h
    subst h
    refine ⟨?_, ?_, ?_, ?_, ?_, ?_, ?_⟩ <;> decide

/-- C10: confirmNonInteractive returns true on the five yes-forms, false on
the five no-forms, and the default on any other input and on read failure. -/
theorem confirmNonInteractive_cases (question : String) (defaultYes : Bool)
    (input : Option String) :
    (∀ s, input = some s →
       (s = "y" ∨ s = "Y" ∨ s = "yes" ∨ s = "Yes" ∨ s = "YES" →
          confirmNonInteractive question defaultYes input = true) ∧
       (s = "n" ∨ s = "N" ∨ s = "no" ∨ s = "No" ∨ s = "NO" →
          confirmNonInteractive question defaultYes input = false) ∧
       (¬ (s = "y" ∨ s = "Y" ∨ s = "yes" ∨ s = "Yes" ∨ s = "YES") →
        ¬ (s = "n" ∨ s = "N" ∨ s = "no" ∨ s = "No" ∨ s = "NO") →
          confirmNonInteractive question defaultYes input = defaultYes)) ∧
    (input = none →
       confirmNonInteractive question defaultYes input = defaultYes) := by
  constructor
  · intro s hs
    subst hs
    refine ⟨?_, ?_, ?_⟩
    · intro hy
      simp [confirmNonInteractive, hy]
    · intro hn
      have hny : ¬ (s = "y" ∨ s = "Y" ∨ s = "yes" ∨ s = "Yes" ∨ s = "YES") := by
        rcases hn with rfl | rfl | rfl | rfl | rfl <;> decide
      simp [confirmNonInteractive, hny, hn]
    · intro hny hnn
      simp [confirmNonInteractive, hny, hnn]
  · intro hn
    subst hn
    rfl

/-- Witness for C10: a yes-form, a no-form, an unrecognised answer, and a
failed read. -/
theorem confirmNonInteractive_cases_witness :
    confirmNonInteractive "proceed?" false (some "yes") = true ∧
    confirmNonInteractive "proceed?" true (some "No") = false ∧
    confirmNonInteractive "proceed?" true (some "maybe") = true ∧
    confirmNonInteractive "proceed?" false none = false := by
  refine ⟨?_, ?_, ?_, ?_⟩
  · exact ((confirmNonInteractive_cases "proceed?" false (some "yes")).1
      "yes" rfl).1 (by decide)
  · exact ((confirmNonInteractive_cases "proceed?" true (some "No")).1
      "No" rfl).2.1 (by decide)
  · exact ((confirmNonInteractive_cases "proceed?" true (some "maybe")).1
      "maybe" rfl).2.2 (by decide) (by decide)
  · exact (confirmNonInteractive_cases "proceed?" false none).2 rfl

end ClaudeGate
